import Mathlib

/-!
# Verification of the CRUDTires repository (collection + tires services)

Shallow embedding of the two FastAPI services in this repository:

* `src/collection_main.py` — invoice collection service (period resolver,
  list/get/update/soft-delete handlers, bulk upload);
* `src/main.py` — tires catalog service (list handler);
* `src/collection_models.py`, `src/models.py` — pydantic response models;
* `src/database.py` — thin SQL helpers (`query`, `query_one`, `execute`).

The database is modelled as a Lean list of records; a SQL `SELECT ... WHERE`
becomes `List.filter` with the same predicate list that the handler builds,
`ORDER BY` becomes an insertion sort with the same comparison key,
`LIMIT/OFFSET` become `List.take`/`List.drop`, and a `COUNT(*)` query becomes
`List.length` of the filtered list.  `HTTPException` is modelled with
`Except HTTPError`.  Python `date` objects are modelled by a proleptic
Gregorian calendar type; `timedelta` arithmetic becomes iterated
previous-day / next-day steps.  Decimal/float columns are modelled by `Rat`
(with an explicit NaN marker where pandas missing values can flow in).
-/

deriving instance DecidableEq for Except

/-- Models FastAPI's `HTTPException(status_code, detail)`. -/
structure HTTPError where
  status : Nat
  detail : String
deriving DecidableEq, Repr

/-! ## Calendar model (Python `datetime.date`)

A proleptic Gregorian date.  `Date.key` is a strictly monotone (with respect
to calendar order, on valid dates) linearisation used to model Python's
comparison of `date` values: for a valid date, `month * 32 + day` lies in
`[33, 415]`, so the key orders dates lexicographically by (year, month, day).
-/

/-- Gregorian leap year test (proleptic, over integer years). -/
def isLeapYear (y : Int) : Bool :=
  (y % 4 == 0 && y % 100 != 0) || (y % 400 == 0)

/-- Number of days of month `m` (1–12) in year `y`. -/
def daysInMonth (y : Int) (m : Nat) : Nat :=
  if m = 2 then (if isLeapYear y then 29 else 28)
  else if m = 4 ∨ m = 6 ∨ m = 9 ∨ m = 11 then 30
  else 31

/-- Models Python's `datetime.date` (proleptic Gregorian). -/
structure Date where
  year : Int
  month : Nat
  day : Nat
deriving DecidableEq, Repr

/-- The date is an actual calendar date. -/
def Date.Valid (d : Date) : Prop :=
  1 ≤ d.month ∧ d.month ≤ 12 ∧ 1 ≤ d.day ∧ d.day ≤ daysInMonth d.year d.month

instance (d : Date) : Decidable d.Valid := by
  unfold Date.Valid; infer_instance

/-- Linearisation of calendar order (models comparison of Python `date`s;
agrees with lexicographic (year, month, day) order on valid dates). -/
def Date.key (d : Date) : Int :=
  d.year * 416 + (d.month : Int) * 32 + (d.day : Int)

/-- Calendar order on dates (via the key linearisation). -/
def Date.le (a b : Date) : Prop := a.key ≤ b.key

/-- Strict calendar order on dates. -/
def Date.lt (a b : Date) : Prop := a.key < b.key

instance (a b : Date) : Decidable (a.le b) := by unfold Date.le; infer_instance

instance (a b : Date) : Decidable (a.lt b) := by unfold Date.lt; infer_instance

/-- Step one day back (models `d - timedelta(days=1)`). -/
def prevDay (d : Date) : Date :=
  if 1 < d.day then ⟨d.year, d.month, d.day - 1⟩
  else if 1 < d.month then ⟨d.year, d.month - 1, daysInMonth d.year (d.month - 1)⟩
  else ⟨d.year - 1, 12, 31⟩

/-- Step one day forward (models `d + timedelta(days=1)`). -/
def nextDay (d : Date) : Date :=
  if d.day < daysInMonth d.year d.month then ⟨d.year, d.month, d.day + 1⟩
  else if d.month < 12 then ⟨d.year, d.month + 1, 1⟩
  else ⟨d.year + 1, 1, 1⟩

/-- Models `d - timedelta(days=n)`. -/
def subDays (d : Date) : Nat → Date
  | 0 => d
  | n + 1 => prevDay (subDays d n)

/-- Models `d + timedelta(days=n)`. -/
def addDays (d : Date) : Nat → Date
  | 0 => d
  | n + 1 => nextDay (addDays d n)

/-- Models `d.replace(day=1)`. -/
def monthStart (d : Date) : Date := ⟨d.year, d.month, 1⟩

theorem daysInMonth_pos (y : Int) (m : Nat) : 1 ≤ daysInMonth y m := by
  unfold daysInMonth
  split
  · split <;> omega
  · split <;> omega

theorem daysInMonth_le (y : Int) (m : Nat) : daysInMonth y m ≤ 31 := by
  unfold daysInMonth
  split
  · split <;> omega
  · split <;> omega

theorem daysInMonth_december (y : Int) : daysInMonth y 12 = 31 := by
  unfold daysInMonth
  norm_num

theorem prevDay_valid {d : Date} (h : d.Valid) : (prevDay d).Valid := by
  obtain ⟨y, m, dd⟩ := d
  obtain ⟨h1, h2, h3, h4⟩ := h
  dsimp only at h1 h2 h3 h4
  have hpos := daysInMonth_pos y (m - 1)
  have hdec := daysInMonth_december (y - 1)
  unfold prevDay Date.Valid
  dsimp only
  split
  · dsimp only
    omega
  · split
    · dsimp only
      omega
    · dsimp only
      omega

theorem prevDay_key_lt {d : Date} (h : d.Valid) : (prevDay d).key < d.key := by
  obtain ⟨y, m, dd⟩ := d
  obtain ⟨h1, h2, h3, h4⟩ := h
  dsimp only at h1 h2 h3 h4
  have h5 := daysInMonth_le y (m - 1)
  have h6 := daysInMonth_le y m
  unfold prevDay Date.key
  dsimp only
  split
  · dsimp only
    omega
  · split
    · dsimp only
      omega
    · dsimp only
      omega

theorem subDays_valid {d : Date} (h : d.Valid) (n : Nat) : (subDays d n).Valid := by
  induction n with
  | zero => exact h
  | succ n ih => exact prevDay_valid ih

theorem subDays_key_le {d : Date} (h : d.Valid) (n : Nat) : (subDays d n).key ≤ d.key := by
  induction n with
  | zero => exact le_refl _
  | succ n ih =>
    exact le_trans (le_of_lt (prevDay_key_lt (subDays_valid h n))) ih

theorem subDays_key_lt {d : Date} (h : d.Valid) (n : Nat) (hn : 0 < n) :
    (subDays d n).key < d.key := by
  cases n with
  | zero => omega
  | succ n =>
    exact lt_of_lt_of_le (prevDay_key_lt (subDays_valid h n)) (subDays_key_le h n)

theorem nextDay_prevDay {d : Date} (h : d.Valid) : nextDay (prevDay d) = d := by
  obtain ⟨y, m, dd⟩ := d
  obtain ⟨h1, h2, h3, h4⟩ := h
  dsimp only at h1 h2 h3 h4
  have hpos := daysInMonth_pos y (m - 1)
  unfold prevDay
  dsimp only
  split
  · unfold nextDay
    dsimp only
    rw [if_pos (by omega)]
    have heq : dd - 1 + 1 = dd := by omega
    rw [heq]
  · split
    · unfold nextDay
      dsimp only
      rw [if_neg (by omega), if_pos (by omega)]
      have heqm : m - 1 + 1 = m := by omega
      have hd : dd = 1 := by omega
      rw [heqm, hd]
    · unfold nextDay
      dsimp only
      rw [daysInMonth_december]
      rw [if_neg (by omega), if_neg (by omega)]
      have hy : y - 1 + 1 = y := by omega
      have hm : m = 1 := by omega
      have hd : dd = 1 := by omega
      rw [hy, hm, hd]

theorem addDays_subDays_cancel {d : Date} (h : d.Valid) (n k : Nat) :
    addDays (subDays d (n + k)) k = subDays d n := by
  induction k generalizing n with
  | zero => rfl
  | succ k ih =>
    show nextDay (addDays (subDays d (n + (k + 1))) k) = subDays d n
    have step : n + (k + 1) = (n + 1) + k := by omega
    rw [step, ih (n + 1)]
    show nextDay (prevDay (subDays d n)) = subDays d n
    exact nextDay_prevDay (subDays_valid h n)

/-- Models Python `date.toordinal()` (rata die; 0001-01-01 has ordinal 1).
Division is integer floor division (Lean `Int` `/` is Euclidean, which agrees
with floor division for positive divisors). -/
def Date.toOrdinal (d : Date) : Int :=
  let y := d.year
  let m : Int := (d.month : Int)
  let adj : Int := if m ≤ 2 then 0 else if isLeapYear y then -1 else -2
  365 * (y - 1) + (y - 1) / 4 - (y - 1) / 100 + (y - 1) / 400
    + (367 * m - 362) / 12 + adj + (d.day : Int)

/-- Models Python `date.weekday()` (Monday = 0 ... Sunday = 6). -/
def Date.weekday (d : Date) : Nat := ((d.toOrdinal + 6) % 7).toNat

theorem weekday_lt_7 (d : Date) : d.weekday < 7 := by
  unfold Date.weekday
  have h1 : 0 ≤ (d.toOrdinal + 6) % 7 := Int.emod_nonneg _ (by norm_num)
  have h2 : (d.toOrdinal + 6) % 7 < 7 := Int.emod_lt_of_pos _ (by norm_num)
  omega

/-! ## Period resolver (`get_period_dates`, src/collection_main.py lines 37–87) -/

/-- Models `get_period_dates(period)` from `src/collection_main.py`; `today` is
the ambient `datetime.now().date()`.  A raised `HTTPException(400, ...)` is
modelled as `Except.error`. -/
def get_period_dates (period : String) (today : Date) : Except HTTPError (Date × Date) :=
  if period = "today" then Except.ok (today, today)
  else if period = "yesterday" then
    let yesterday := subDays today 1
    Except.ok (yesterday, yesterday)
  else if period = "current_week" then
    Except.ok (subDays today today.weekday, today)
  else if period = "last_week" then
    let start := subDays today (today.weekday + 7)
    Except.ok (start, addDays start 6)
  else if period = "current_month" then
    Except.ok (monthStart today, today)
  else if period = "last_month" then
    let first_current := monthStart today
    let last_month_end := subDays first_current 1
    let last_month_start := monthStart last_month_end
    Except.ok (last_month_start, last_month_end)
  else if period = "last_3_months" then
    Except.ok (monthStart (subDays (monthStart today) 90), today)
  else if period = "last_6_months" then
    Except.ok (monthStart (subDays (monthStart today) 180), today)
  else if period = "current_year" then
    Except.ok (⟨today.year, 1, 1⟩, today)
  else if period = "last_year" then
    Except.ok (⟨today.year - 1, 1, 1⟩, ⟨today.year - 1, 12, 31⟩)
  else Except.error ⟨400, "Invalid period: " ++ period⟩

/-- The ten period tokens the resolver recognises (also listed by the enums
endpoint at src/collection_main.py lines 102–106). -/
def validPeriods : List String :=
  ["today", "yesterday", "current_week", "last_week",
   "current_month", "last_month", "last_3_months", "last_6_months",
   "current_year", "last_year"]

theorem subDays_add (d : Date) (a b : Nat) :
    subDays d (a + b) = subDays (subDays d a) b := by
  induction b with
  | zero => rfl
  | succ b ih =>
    show prevDay (subDays d (a + b)) = prevDay (subDays (subDays d a) b)
    rw [ih]

theorem monthStart_valid {d : Date} (h : d.Valid) : (monthStart d).Valid := by
  obtain ⟨h1, h2, h3, h4⟩ := h
  exact ⟨h1, h2, le_refl _, daysInMonth_pos _ _⟩

theorem monthStart_key_le {d : Date} (h : d.Valid) : (monthStart d).key ≤ d.key := by
  obtain ⟨h1, h2, h3, h4⟩ := h
  unfold monthStart Date.key
  dsimp only
  omega

theorem date_le_refl (d : Date) : d.le d := le_refl _

theorem date_le_of_key_le {a b : Date} (h : a.key ≤ b.key) : a.le b := h

/-- C6: for every valid period token and every (valid) current date, the
resolver returns `ok (start, end)` with `start ≤ end` and `end ≤ today`;
for an unrecognized token it fails with an `HTTPException` carrying
status 400 (InvalidArgument). -/
theorem period_dates_sound (period : String) (today : Date) (hv : today.Valid) :
    (period ∈ validPeriods →
      ∃ s e, get_period_dates period today = Except.ok (s, e) ∧ s.le e ∧ e.le today) ∧
    (period ∉ validPeriods →
      get_period_dates period today = Except.error ⟨400, "Invalid period: " ++ period⟩) := by
  constructor
  · intro hmem
    simp only [validPeriods, List.mem_cons, List.not_mem_nil, or_false] at hmem
    obtain ⟨hm1, hm2, hd1, hd2⟩ := hv
    rcases hmem with rfl | rfl | rfl | rfl | rfl | rfl | rfl | rfl | rfl | rfl
    · exact ⟨today, today, rfl, date_le_refl _, date_le_refl _⟩
    · refine ⟨_, _, rfl, date_le_refl _, ?_⟩
      exact subDays_key_le ⟨hm1, hm2, hd1, hd2⟩ 1
    · refine ⟨_, _, rfl, ?_, date_le_refl _⟩
      exact subDays_key_le ⟨hm1, hm2, hd1, hd2⟩ today.weekday
    · -- last_week: end = start + 6 days = today - (weekday + 1) days
      have hv' : today.Valid := ⟨hm1, hm2, hd1, hd2⟩
      refine ⟨_, _, rfl, ?_, ?_⟩
      · rw [show today.weekday + 7 = (today.weekday + 1) + 6 from rfl,
          addDays_subDays_cancel hv' (today.weekday + 1) 6]
        rw [show (today.weekday + 1) + 6 = (today.weekday + 1) + 6 from rfl,
          subDays_add today (today.weekday + 1) 6]
        exact subDays_key_le (subDays_valid hv' (today.weekday + 1)) 6
      · rw [show today.weekday + 7 = (today.weekday + 1) + 6 from rfl,
          addDays_subDays_cancel hv' (today.weekday + 1) 6]
        exact subDays_key_le hv' (today.weekday + 1)
    · refine ⟨_, _, rfl, ?_, date_le_refl _⟩
      exact monthStart_key_le ⟨hm1, hm2, hd1, hd2⟩
    · -- last_month
      have hv' : today.Valid := ⟨hm1, hm2, hd1, hd2⟩
      have hms := monthStart_valid hv'
      refine ⟨_, _, rfl, ?_, ?_⟩
      · exact monthStart_key_le (subDays_valid hms 1)
      · exact le_trans (le_of_lt (subDays_key_lt hms 1 (by omega))) (monthStart_key_le hv')
    · -- last_3_months
      have hv' : today.Valid := ⟨hm1, hm2, hd1, hd2⟩
      have hms := monthStart_valid hv'
      refine ⟨_, _, rfl, ?_, date_le_refl _⟩
      exact le_trans (monthStart_key_le (subDays_valid hms 90))
        (le_trans (subDays_key_le hms 90) (monthStart_key_le hv'))
    · -- last_6_months
      have hv' : today.Valid := ⟨hm1, hm2, hd1, hd2⟩
      have hms := monthStart_valid hv'
      refine ⟨_, _, rfl, ?_, date_le_refl _⟩
      exact le_trans (monthStart_key_le (subDays_valid hms 180))
        (le_trans (subDays_key_le hms 180) (monthStart_key_le hv'))
    · -- current_year
      refine ⟨_, _, rfl, ?_, date_le_refl _⟩
      unfold Date.le Date.key
      dsimp only
      omega
    · -- last_year
      refine ⟨_, _, rfl, ?_, ?_⟩
      · unfold Date.le Date.key
        dsimp only
        omega
      · unfold Date.le Date.key
        dsimp only
        omega
  · intro hmem
    simp only [validPeriods, List.mem_cons, List.not_mem_nil, or_false, not_or] at hmem
    obtain ⟨n1, n2, n3, n4, n5, n6, n7, n8, n9, n10⟩ := hmem
    unfold get_period_dates
    rw [if_neg n1, if_neg n2, if_neg n3, if_neg n4, if_neg n5, if_neg n6, if_neg n7,
      if_neg n8, if_neg n9, if_neg n10]

/-- Witness for `period_dates_sound` at a concrete token and date. -/
theorem period_dates_sound_witness :
    (Date.mk 2026 10 12).Valid ∧ "last_month" ∈ validPeriods ∧
    (∃ s e, get_period_dates "last_month" ⟨2026, 10, 12⟩ = Except.ok (s, e) ∧
      s.le e ∧ e.le ⟨2026, 10, 12⟩) :=
  ⟨by decide, by decide,
    (period_dates_sound "last_month" ⟨2026, 10, 12⟩ (by decide)).1 (by decide)⟩

/-! ## Collection data model (table `collection`, src/collection_models.py) -/

/-- A row of the `collection` table (columns used by the handlers; decimal
columns are modelled by `Rat`). -/
structure CollectionRecord where
  id : Int
  invoice_number : String
  company_id : Int
  customer_name : String
  user_id : Int
  service : String
  invoice_date : Date
  due_date : Date
  amount : Rat
  amount_paid : Rat
  status : String
  last_partial_payment_date : Option Date
  branch : String
  outstanding_balance : Rat
  is_deleted : Bool
deriving DecidableEq, Repr

/-! ## Generic SQL-over-lists machinery -/

/-- A conjunction of WHERE predicates (`" AND ".join(where_conditions)`). -/
def matchesAll {α : Type} (conds : List (α → Bool)) (r : α) : Bool :=
  conds.all (fun c => c r)

/-- Insertion of one element into a list sorted by `le` (stable). -/
def insertSorted {α : Type} (le : α → α → Bool) (x : α) : List α → List α
  | [] => [x]
  | y :: ys => if le x y then x :: y :: ys else y :: insertSorted le x ys

/-- Insertion sort; models SQL `ORDER BY` with comparison `le`. -/
def sortByRel {α : Type} (le : α → α → Bool) : List α → List α
  | [] => []
  | x :: xs => insertSorted le x (sortByRel le xs)

theorem mem_insertSorted {α : Type} {le : α → α → Bool} {x y : α} {l : List α} :
    y ∈ insertSorted le x l ↔ y = x ∨ y ∈ l := by
  induction l with
  | nil => simp [insertSorted]
  | cons z zs ih =>
    unfold insertSorted
    split
    · simp
    · simp only [List.mem_cons, ih]
      tauto

theorem mem_sortByRel {α : Type} {le : α → α → Bool} {y : α} {l : List α} :
    y ∈ sortByRel le l ↔ y ∈ l := by
  induction l with
  | nil => simp [sortByRel]
  | cons z zs ih =>
    unfold sortByRel
    rw [mem_insertSorted]
    simp only [List.mem_cons, ih]

/-- Models `math.ceil(a / b)` on nonnegative integers with `b > 0`
(Python 3 true division followed by `math.ceil`). -/
def ceilDiv (a b : Nat) : Nat := (a + b - 1) / b

/-- Pagination metadata (`PaginationInfo`, src/collection_models.py lines 68–73). -/
structure PaginationInfo where
  page : Nat
  limit : Nat
  total : Nat
  total_pages : Nat
deriving DecidableEq, Repr

/-! ## Collection list endpoint (`list_collections`, src/collection_main.py 128–204) -/

/-- Python truthiness of `Optional[int]` (`if company_id:`), used by
`list_collections`: `None` and `0` are falsy. -/
def truthyInt : Option Int → Bool
  | none => false
  | some n => n != 0

/-- Python truthiness of `Optional[str]` (`if status:` etc.): `None` and the
empty string are falsy. -/
def truthyStr : Option String → Bool
  | none => false
  | some s => s != ""

/-- WHERE predicates contributed by an optional integer equality filter
(`if company_id: where_conditions.append("company_id = %s")`). -/
def condInt {α : Type} (get : α → Int) : Option Int → List (α → Bool)
  | some v => if v != 0 then [fun r => get r == v] else []
  | none => []

/-- WHERE predicates contributed by an optional string equality filter. -/
def condStr {α : Type} (get : α → String) : Option String → List (α → Bool)
  | some v => if v != "" then [fun r => get r == v] else []
  | none => []

/-- WHERE predicate contributed by `from_date` (`invoice_date >= %s`);
a `date` object is always truthy in Python, so only `None` is skipped. -/
def condFromDate : Option Date → List (CollectionRecord → Bool)
  | some v => [fun r => v.key ≤ r.invoice_date.key]
  | none => []

/-- WHERE predicate contributed by `to_date` (`invoice_date <= %s`). -/
def condToDate : Option Date → List (CollectionRecord → Bool)
  | some v => [fun r => r.invoice_date.key ≤ v.key]
  | none => []

/-- The full WHERE clause of `list_collections` (lines 143–173): starts from
`is_deleted = 0` and appends one predicate per present filter. -/
def collection_where (company_id : Option Int) (status service branch : Option String)
    (from_date to_date : Option Date) : List (CollectionRecord → Bool) :=
  (fun r : CollectionRecord => !r.is_deleted) ::
    (condInt (fun r : CollectionRecord => r.company_id) company_id ++
     condStr (fun r : CollectionRecord => r.status) status ++
     condStr (fun r : CollectionRecord => r.service) service ++
     condStr (fun r : CollectionRecord => r.branch) branch ++
     condFromDate from_date ++ condToDate to_date)

/-- `ORDER BY invoice_date DESC, id DESC` (line 184). -/
def collOrder (a b : CollectionRecord) : Bool :=
  b.invoice_date.key < a.invoice_date.key ||
    (a.invoice_date.key == b.invoice_date.key && b.id ≤ a.id)

/-- Query parameters of `GET /api/collection` (after FastAPI validation:
`page ≥ 1`, `1 ≤ limit ≤ 100`). -/
structure ListCollectionsParams where
  page : Nat
  limit : Nat
  company_id : Option Int
  status : Option String
  service : Option String
  branch : Option String
  period : Option String
  from_date : Option Date
  to_date : Option Date
deriving DecidableEq, Repr

/-- Result of the collection list endpoint (data page plus pagination). -/
structure CollectionListResult where
  data : List CollectionRecord
  pagination : PaginationInfo
deriving DecidableEq, Repr

/-- COUNT query / SELECT query / pagination assembly of `list_collections`
(lines 175–202), given the already-built WHERE predicates and resolved dates. -/
def run_collection_query (conds : List (CollectionRecord → Bool)) (page limit : Nat)
    (db : List CollectionRecord) : CollectionListResult :=
  let offset := (page - 1) * limit
  let rows := db.filter (matchesAll conds)
  let total := rows.length
  let pageRows := ((sortByRel collOrder rows).drop offset).take limit
  { data := pageRows,
    pagination :=
      { page := page, limit := limit, total := total,
        total_pages := if 0 < total then ceilDiv total limit else 0 } }

/-- Date-range resolution step of `list_collections` (lines 146–147):
`if period: from_date, to_date = get_period_dates(period)` — a truthy `period`
overwrites both explicit dates.  An `HTTPException(400)` raised by
`get_period_dates` is caught by the handler's generic `except Exception`
clause and re-raised as a 500 whose detail is `str(e)`. -/
def resolved_dates (p : ListCollectionsParams) (today : Date) :
    Except HTTPError (Option Date × Option Date) :=
  if truthyStr p.period then
    match get_period_dates (p.period.getD "") today with
    | Except.ok (s, e) => Except.ok (some s, some e)
    | Except.error err =>
      Except.error ⟨500, toString err.status ++ ": " ++ err.detail⟩
  else Except.ok (p.from_date, p.to_date)

/-- Models `list_collections` (src/collection_main.py lines 128–204).  `today`
is the ambient current date used by the period resolver. -/
def list_collections (p : ListCollectionsParams) (today : Date)
    (db : List CollectionRecord) : Except HTTPError CollectionListResult :=
  match resolved_dates p today with
  | Except.error e => Except.error e
  | Except.ok (from_date, to_date) =>
    Except.ok (run_collection_query
      (collection_where p.company_id p.status p.service p.branch from_date to_date)
      p.page p.limit db)

/-! ## Collection get / soft delete (src/collection_main.py 207–226, 366–385) -/

/-- Models `get_collection` (lines 207–226): `query_one` returns the first row
matching `id = %s AND is_deleted = 0`; no row → 404. -/
def get_collection (collection_id : Int) (db : List CollectionRecord) :
    Except HTTPError CollectionRecord :=
  match db.find? (fun r => r.id == collection_id && !r.is_deleted) with
  | some r => Except.ok r
  | none => Except.error ⟨404, "Collection not found"⟩

/-- Models `soft_delete_collection` (lines 366–385): runs
`UPDATE collection SET is_deleted = 1 WHERE id = %s AND is_deleted = 0`, then
returns 404 if no row was affected.  The pair is (HTTP result, new database
state). -/
def soft_delete_collection (collection_id : Int) (db : List CollectionRecord) :
    Except HTTPError String × List CollectionRecord :=
  let affected := (db.filter (fun r => r.id == collection_id && !r.is_deleted)).length
  let db' := db.map (fun r =>
    if r.id == collection_id && !r.is_deleted then { r with is_deleted := true } else r)
  if affected == 0 then (Except.error ⟨404, "Collection not found"⟩, db')
  else (Except.ok "Collection deleted successfully", db')

/-! ## Tires data model and list endpoint (src/models.py, src/main.py 38–108) -/

/-- A row of the `tires_catalog` table (`_load` is surfaced as `load_value`,
matching the pydantic alias in src/models.py line 24). -/
structure TireRecord where
  id : Int
  brand : String
  model : String
  size : String
  layer_index : Option String
  layers : Option Int
  max_pressure : Option Int
  min_pressure : Option Int
  max_depth : Option Int
  min_depth : Option Int
  wear_type : Option String
  profitability : Option Int
  performance : Option Int
  temperature : Option String
  speed : Option String
  speed_number : Option Int
  braking : Option String
  load_type : Option String
  load_value : Option Int
  road_type : Option String
  terrain_type : Option String
  position : Option String
  created_at : Int
  updated_at : Int
deriving DecidableEq, Repr

/-- `startsWithChars l n` : `n` is an initial segment of `l`. -/
def startsWithChars : List Char → List Char → Bool
  | _, [] => true
  | [], _ :: _ => false
  | h :: t, nh :: nt => h == nh && startsWithChars t nt

/-- `hasSubChars l n` : `n` occurs contiguously inside `l`. -/
def hasSubChars : List Char → List Char → Bool
  | [], needle => needle.isEmpty
  | h :: t, needle => startsWithChars (h :: t) needle || hasSubChars t needle

/-- SQL `column LIKE '%needle%'`: substring containment. -/
def likeContains (hay needle : String) : Bool :=
  hasSubChars hay.toList needle.toList

/-- Models Python `str.endswith` (executable over character lists). -/
def strEndsWith (s t : String) : Bool :=
  startsWithChars s.toList.reverse t.toList.reverse

/-- WHERE predicate contributed by `search`
(`(brand LIKE %s OR model LIKE %s OR size LIKE %s)`, src/main.py lines 56–59). -/
def condSearch : Option String → List (TireRecord → Bool)
  | some v => if v != "" then
      [fun t => likeContains t.brand v || likeContains t.model v || likeContains t.size v]
    else []
  | none => []

/-- WHERE predicate contributed by `position` (`position = %s`; the column is
nullable, and SQL `NULL = v` is not satisfied). -/
def condPosition : Option String → List (TireRecord → Bool)
  | some v => if v != "" then [fun t => t.position == some v] else []
  | none => []

/-- The full WHERE clause of `list_tires` (src/main.py lines 53–77). -/
def tires_where (search brand model size position : Option String) :
    List (TireRecord → Bool) :=
  condSearch search ++
    condStr (fun t : TireRecord => t.brand) brand ++
    condStr (fun t : TireRecord => t.model) model ++
    condStr (fun t : TireRecord => t.size) size ++
    condPosition position

/-- `ORDER BY id DESC` (src/main.py line 88). -/
def tireOrder (a b : TireRecord) : Bool := b.id ≤ a.id

/-- Query parameters of `GET /api/tires` (after FastAPI validation). -/
structure ListTiresParams where
  page : Nat
  limit : Nat
  search : Option String
  brand : Option String
  model : Option String
  size : Option String
  position : Option String
deriving DecidableEq, Repr

/-- Result of the tires list endpoint. -/
structure TireListResult where
  data : List TireRecord
  pagination : PaginationInfo
deriving DecidableEq, Repr

/-- COUNT query / SELECT query / pagination assembly of `list_tires`
(src/main.py lines 79–106).  Unlike the collection service, `total_pages` is
`math.ceil(total / limit)` unconditionally. -/
def run_tire_query (conds : List (TireRecord → Bool)) (page limit : Nat)
    (db : List TireRecord) : TireListResult :=
  let offset := (page - 1) * limit
  let rows := db.filter (matchesAll conds)
  let total := rows.length
  let pageRows := ((sortByRel tireOrder rows).drop offset).take limit
  { data := pageRows,
    pagination :=
      { page := page, limit := limit, total := total,
        total_pages := ceilDiv total limit } }

/-- Models `list_tires` (src/main.py lines 38–108). -/
def list_tires (p : ListTiresParams) (db : List TireRecord) : TireListResult :=
  run_tire_query (tires_where p.search p.brand p.model p.size p.position)
    p.page p.limit db

/-! ## C4: soft-deleted records are invisible; double delete is a 404 no-op -/

theorem mem_run_collection_query_data {conds : List (CollectionRecord → Bool)}
    {page limit : Nat} {db : List CollectionRecord} {r : CollectionRecord}
    (hr : r ∈ (run_collection_query conds page limit db).data) :
    matchesAll conds r = true := by
  unfold run_collection_query at hr
  dsimp only at hr
  have h1 := List.take_subset _ _ hr
  have h2 := List.drop_subset _ _ h1
  rw [mem_sortByRel] at h2
  exact (List.mem_filter.mp h2).2

/-- C4: soft-deleted collection rows (`is_deleted = 1`) never appear in the
result of the list endpoint or of get-by-id (both SELECTs carry
`is_deleted = 0`), and deleting a record that is already soft-deleted affects
zero rows, fails with 404, and leaves the database unchanged. -/
theorem soft_deleted_never_visible :
    (∀ (p : ListCollectionsParams) (today : Date) (db : List CollectionRecord)
        (res : CollectionListResult),
      list_collections p today db = Except.ok res →
      ∀ r ∈ res.data, r.is_deleted = false) ∧
    (∀ (collection_id : Int) (db : List CollectionRecord) (r : CollectionRecord),
      get_collection collection_id db = Except.ok r → r.is_deleted = false) ∧
    (∀ (collection_id : Int) (db : List CollectionRecord),
      (∀ r ∈ db, r.id = collection_id → r.is_deleted = true) →
      soft_delete_collection collection_id db =
        (Except.error ⟨404, "Collection not found"⟩, db)) := by
  refine ⟨?_, ?_, ?_⟩
  · intro p today db res hok r hr
    unfold list_collections at hok
    split at hok
    · exact absurd hok (by simp)
    · rw [Except.ok.injEq] at hok
      subst hok
      have hm := mem_run_collection_query_data hr
      unfold collection_where matchesAll at hm
      rw [List.all_cons] at hm
      have hhead := (Bool.and_eq_true .. ▸ hm).1
      simpa using hhead
  · intro collection_id db r hok
    unfold get_collection at hok
    split at hok
    · rename_i a hfind
      rw [Except.ok.injEq] at hok
      subst hok
      have := List.find?_some hfind
      have hb := (Bool.and_eq_true .. ▸ this).2
      simpa using hb
    · exact absurd hok (by simp)
  · intro collection_id db hall
    have hfil : db.filter (fun r => r.id == collection_id && !r.is_deleted) = [] := by
      rw [List.filter_eq_nil_iff]
      intro r hr
      by_cases hid : r.id = collection_id
      · have hdel := hall r hr hid
        simp [hid, hdel]
      · simp [hid]
    have hmap : db.map (fun r =>
        if r.id == collection_id && !r.is_deleted then { r with is_deleted := true }
        else r) = db := by
      have hcong : ∀ r ∈ db,
          (if r.id == collection_id && !r.is_deleted then { r with is_deleted := true }
           else r) = r := by
        intro r hr
        by_cases hid : r.id = collection_id
        · have hdel := hall r hr hid
          simp [hid, hdel]
        · simp [hid]
      rw [List.map_congr_left hcong, List.map_id']
    unfold soft_delete_collection
    rw [hfil, hmap]
    rfl

/-- Witness for `soft_deleted_never_visible`: a concrete already-deleted
record; the delete endpoint 404s and leaves the database unchanged. -/
theorem soft_deleted_never_visible_witness :
    soft_delete_collection 1
        [{ id := 1, invoice_number := "INV-1", company_id := 2,
           customer_name := "ACME", user_id := 3, service := "app",
           invoice_date := ⟨2026, 1, 10⟩, due_date := ⟨2026, 2, 10⟩,
           amount := 100, amount_paid := 0, status := "pending",
           last_partial_payment_date := none, branch := "Q1",
           outstanding_balance := 100, is_deleted := true }] =
      (Except.error ⟨404, "Collection not found"⟩,
        [{ id := 1, invoice_number := "INV-1", company_id := 2,
           customer_name := "ACME", user_id := 3, service := "app",
           invoice_date := ⟨2026, 1, 10⟩, due_date := ⟨2026, 2, 10⟩,
           amount := 100, amount_paid := 0, status := "pending",
           last_partial_payment_date := none, branch := "Q1",
           outstanding_balance := 100, is_deleted := true }]) :=
  soft_deleted_never_visible.2.2 1 _ (by decide)

/-! ## C5: offset and total_pages arithmetic of the list endpoints -/

theorem ceilDiv_bounds (t l : Nat) (hl : 1 ≤ l) (ht : 0 < t) :
    t ≤ ceilDiv t l * l ∧ (ceilDiv t l - 1) * l < t := by
  unfold ceilDiv
  generalize hq : (t + l - 1) / l = q
  have h := Nat.div_add_mod (t + l - 1) l
  rw [hq] at h
  have h2 : (t + l - 1) % l < l := Nat.mod_lt _ (by omega)
  generalize hm : (t + l - 1) % l = m at h h2
  rw [Nat.sub_one_mul, Nat.mul_comm q l]
  generalize hk : l * q = k at h ⊢
  omega

theorem ceilDiv_zero_left (l : Nat) (hl : 1 ≤ l) : ceilDiv 0 l = 0 := by
  unfold ceilDiv
  exact Nat.div_eq_of_lt (by omega)

/-- C5: for page ≥ 1 and 1 ≤ limit ≤ 100, both list endpoints select the page
with offset `(page − 1) × limit` over the sorted filtered rows, report
`total` as the count over the same WHERE predicates, and report
`total_pages = ceil(total / limit)` when `total > 0` and `0` when
`total = 0` (characterised by `(total_pages − 1)·limit < total ≤
total_pages·limit`). -/
theorem pagination_offset_and_total_pages :
    (∀ (p : ListCollectionsParams) (today : Date) (db : List CollectionRecord)
        (res : CollectionListResult) (fd td : Option Date),
      1 ≤ p.page → 1 ≤ p.limit → p.limit ≤ 100 →
      resolved_dates p today = Except.ok (fd, td) →
      list_collections p today db = Except.ok res →
      res.pagination.total =
        (db.filter (matchesAll
          (collection_where p.company_id p.status p.service p.branch fd td))).length ∧
      res.data =
        ((sortByRel collOrder (db.filter (matchesAll
            (collection_where p.company_id p.status p.service p.branch fd td)))).drop
          ((p.page - 1) * p.limit)).take p.limit ∧
      (res.pagination.total = 0 → res.pagination.total_pages = 0) ∧
      (0 < res.pagination.total →
        res.pagination.total ≤ res.pagination.total_pages * p.limit ∧
        (res.pagination.total_pages - 1) * p.limit < res.pagination.total)) ∧
    (∀ (p : ListTiresParams) (db : List TireRecord),
      1 ≤ p.page → 1 ≤ p.limit → p.limit ≤ 100 →
      (list_tires p db).pagination.total =
        (db.filter (matchesAll
          (tires_where p.search p.brand p.model p.size p.position))).length ∧
      (list_tires p db).data =
        ((sortByRel tireOrder (db.filter (matchesAll
            (tires_where p.search p.brand p.model p.size p.position)))).drop
          ((p.page - 1) * p.limit)).take p.limit ∧
      ((list_tires p db).pagination.total = 0 →
        (list_tires p db).pagination.total_pages = 0) ∧
      (0 < (list_tires p db).pagination.total →
        (list_tires p db).pagination.total ≤
          (list_tires p db).pagination.total_pages * p.limit ∧
        ((list_tires p db).pagination.total_pages - 1) * p.limit <
          (list_tires p db).pagination.total)) := by
  constructor
  · intro p today db res fd td hp hl1 hl2 hres hok
    unfold list_collections at hok
    rw [hres] at hok
    rw [Except.ok.injEq] at hok
    subst hok
    refine ⟨rfl, rfl, ?_, ?_⟩
    · intro h0
      unfold run_collection_query at h0 ⊢
      dsimp only at h0 ⊢
      rw [h0]
      rfl
    · intro hpos
      unfold run_collection_query at hpos ⊢
      dsimp only at hpos ⊢
      rw [if_pos hpos]
      exact ceilDiv_bounds _ _ hl1 hpos
  · intro p db hp hl1 hl2
    refine ⟨rfl, rfl, ?_, ?_⟩
    · intro h0
      unfold list_tires run_tire_query at h0 ⊢
      dsimp only at h0 ⊢
      rw [h0]
      exact ceilDiv_zero_left _ hl1
    · intro hpos
      unfold list_tires run_tire_query at hpos ⊢
      dsimp only at hpos ⊢
      exact ceilDiv_bounds _ _ hl1 hpos

/-- Witness for `pagination_offset_and_total_pages`: a concrete one-record
database queried with page 1, limit 20 and no filters. -/
theorem pagination_offset_and_total_pages_witness :
    (list_tires ⟨1, 20, none, none, none, none, none⟩
        [{ id := 7, brand := "B", model := "M", size := "S",
           layer_index := none, layers := none, max_pressure := none,
           min_pressure := none, max_depth := none, min_depth := none,
           wear_type := none, profitability := none, performance := none,
           temperature := none, speed := none, speed_number := none,
           braking := none, load_type := none, load_value := none,
           road_type := none, terrain_type := none, position := none,
           created_at := 0, updated_at := 0 }]).pagination.total = 1 ∧
    (list_tires ⟨1, 20, none, none, none, none, none⟩
        [{ id := 7, brand := "B", model := "M", size := "S",
           layer_index := none, layers := none, max_pressure := none,
           min_pressure := none, max_depth := none, min_depth := none,
           wear_type := none, profitability := none, performance := none,
           temperature := none, speed := none, speed_number := none,
           braking := none, load_type := none, load_value := none,
           road_type := none, terrain_type := none, position := none,
           created_at := 0, updated_at := 0 }]).pagination.total_pages * 20 ≥ 1 := by
  have h := pagination_offset_and_total_pages.2
    ⟨1, 20, none, none, none, none, none⟩
    [{ id := 7, brand := "B", model := "M", size := "S",
       layer_index := none, layers := none, max_pressure := none,
       min_pressure := none, max_depth := none, min_depth := none,
       wear_type := none, profitability := none, performance := none,
       temperature := none, speed := none, speed_number := none,
       braking := none, load_type := none, load_value := none,
       road_type := none, terrain_type := none, position := none,
       created_at := 0, updated_at := 0 }]
    (by decide) (by decide) (by decide)
  refine ⟨by decide, ?_⟩
  have htot : (list_tires ⟨1, 20, none, none, none, none, none⟩
      [{ id := 7, brand := "B", model := "M", size := "S",
         layer_index := none, layers := none, max_pressure := none,
         min_pressure := none, max_depth := none, min_depth := none,
         wear_type := none, profitability := none, performance := none,
         temperature := none, speed := none, speed_number := none,
         braking := none, load_type := none, load_value := none,
         road_type := none, terrain_type := none, position := none,
         created_at := 0, updated_at := 0 }]).pagination.total = 1 := by decide
  have hb := (h.2.2.2 (by rw [htot]; omega)).1
  dsimp only at hb
  rw [htot] at hb
  omega

/-! ## Collection update endpoint (`update_collection`, src/collection_main.py 276–363) -/

/-- The request body of `PUT /api/collection/{id}` (`CollectionUpdate`,
src/collection_models.py lines 40–53: all twelve fields optional). -/
structure CollectionUpdate where
  invoice_number : Option String
  company_id : Option Int
  customer_name : Option String
  user_id : Option Int
  service : Option String
  invoice_date : Option Date
  due_date : Option Date
  amount : Option Rat
  amount_paid : Option Rat
  status : Option String
  last_partial_payment_date : Option Date
  branch : Option String
deriving DecidableEq, Repr

/-- The twelve updatable columns of the `collection` table. -/
inductive Col
  | invoice_number | company_id | customer_name | user_id | service
  | invoice_date | due_date | amount | amount_paid | status
  | last_partial_payment_date | branch
deriving DecidableEq, Repr

/-- The `update_fields` list built by `update_collection` (lines 281–330):
one `SET` entry per supplied (non-`None`) field, in source order. -/
def update_fields (u : CollectionUpdate) : List Col :=
  (if u.invoice_number.isSome then [Col.invoice_number] else []) ++
  (if u.company_id.isSome then [Col.company_id] else []) ++
  (if u.customer_name.isSome then [Col.customer_name] else []) ++
  (if u.user_id.isSome then [Col.user_id] else []) ++
  (if u.service.isSome then [Col.service] else []) ++
  (if u.invoice_date.isSome then [Col.invoice_date] else []) ++
  (if u.due_date.isSome then [Col.due_date] else []) ++
  (if u.amount.isSome then [Col.amount] else []) ++
  (if u.amount_paid.isSome then [Col.amount_paid] else []) ++
  (if u.status.isSome then [Col.status] else []) ++
  (if u.last_partial_payment_date.isSome then [Col.last_partial_payment_date] else []) ++
  (if u.branch.isSome then [Col.branch] else [])

/-- Effect of the generated `UPDATE collection SET ...` on one matched row:
each supplied field overwrites the column, every other column is untouched. -/
def applyUpdate (u : CollectionUpdate) (r : CollectionRecord) : CollectionRecord :=
  { r with
    invoice_number := u.invoice_number.getD r.invoice_number,
    company_id := u.company_id.getD r.company_id,
    customer_name := u.customer_name.getD r.customer_name,
    user_id := u.user_id.getD r.user_id,
    service := u.service.getD r.service,
    invoice_date := u.invoice_date.getD r.invoice_date,
    due_date := u.due_date.getD r.due_date,
    amount := u.amount.getD r.amount,
    amount_paid := u.amount_paid.getD r.amount_paid,
    status := u.status.getD r.status,
    last_partial_payment_date :=
      match u.last_partial_payment_date with
      | some d => some d
      | none => r.last_partial_payment_date,
    branch := u.branch.getD r.branch }

/-- Models `update_collection` (lines 276–363): zero supplied fields → 400
before any database statement; otherwise run
`UPDATE ... WHERE id = %s AND is_deleted = 0` and 404 when no row matched.
The pair is (HTTP result, new database state). -/
def update_collection (collection_id : Int) (u : CollectionUpdate)
    (db : List CollectionRecord) : Except HTTPError String × List CollectionRecord :=
  if update_fields u = [] then
    (Except.error ⟨400, "No fields to update"⟩, db)
  else
    let affected := (db.filter (fun r => r.id == collection_id && !r.is_deleted)).length
    let db' := db.map (fun r =>
      if r.id == collection_id && !r.is_deleted then applyUpdate u r else r)
    if affected == 0 then (Except.error ⟨404, "Collection not found"⟩, db')
    else (Except.ok "Collection updated successfully", db')

/-- Equality of one named column between two records. -/
def colEq : Col → CollectionRecord → CollectionRecord → Prop
  | Col.invoice_number, a, b => a.invoice_number = b.invoice_number
  | Col.company_id, a, b => a.company_id = b.company_id
  | Col.customer_name, a, b => a.customer_name = b.customer_name
  | Col.user_id, a, b => a.user_id = b.user_id
  | Col.service, a, b => a.service = b.service
  | Col.invoice_date, a, b => a.invoice_date = b.invoice_date
  | Col.due_date, a, b => a.due_date = b.due_date
  | Col.amount, a, b => a.amount = b.amount
  | Col.amount_paid, a, b => a.amount_paid = b.amount_paid
  | Col.status, a, b => a.status = b.status
  | Col.last_partial_payment_date, a, b =>
      a.last_partial_payment_date = b.last_partial_payment_date
  | Col.branch, a, b => a.branch = b.branch

theorem mem_if_singleton {P : Prop} [Decidable P] (x y : Col) :
    (x ∈ if P then [y] else []) ↔ P ∧ x = y := by
  split
  · simp_all
  · simp_all

/-! ## C7: update with zero supplied fields fails with 400 and changes nothing -/

/-- C7: when none of the twelve updatable fields is supplied, the update
handler fails with `HTTPException(400, "No fields to update")` before issuing
any database statement, and the stored state is returned unchanged. -/
theorem update_no_fields_400 (collection_id : Int) (u : CollectionUpdate)
    (db : List CollectionRecord)
    (h1 : u.invoice_number = none) (h2 : u.company_id = none)
    (h3 : u.customer_name = none) (h4 : u.user_id = none)
    (h5 : u.service = none) (h6 : u.invoice_date = none)
    (h7 : u.due_date = none) (h8 : u.amount = none)
    (h9 : u.amount_paid = none) (h10 : u.status = none)
    (h11 : u.last_partial_payment_date = none) (h12 : u.branch = none) :
    update_collection collection_id u db =
      (Except.error ⟨400, "No fields to update"⟩, db) := by
  have hempty : update_fields u = [] := by
    unfold update_fields
    rw [h1, h2, h3, h4, h5, h6, h7, h8, h9, h10, h11, h12]
    rfl
  unfold update_collection
  rw [if_pos hempty]

/-- Witness for `update_no_fields_400`: the all-`none` update body on a
one-record database. -/
theorem update_no_fields_400_witness :
    update_collection 1
        ⟨none, none, none, none, none, none, none, none, none, none, none, none⟩
        [{ id := 1, invoice_number := "INV-1", company_id := 2,
           customer_name := "ACME", user_id := 3, service := "app",
           invoice_date := ⟨2026, 1, 10⟩, due_date := ⟨2026, 2, 10⟩,
           amount := 100, amount_paid := 0, status := "pending",
           last_partial_payment_date := none, branch := "Q1",
           outstanding_balance := 100, is_deleted := false }] =
      (Except.error ⟨400, "No fields to update"⟩,
        [{ id := 1, invoice_number := "INV-1", company_id := 2,
           customer_name := "ACME", user_id := 3, service := "app",
           invoice_date := ⟨2026, 1, 10⟩, due_date := ⟨2026, 2, 10⟩,
           amount := 100, amount_paid := 0, status := "pending",
           last_partial_payment_date := none, branch := "Q1",
           outstanding_balance := 100, is_deleted := false }]) :=
  update_no_fields_400 1 _ _ rfl rfl rfl rfl rfl rfl rfl rfl rfl rfl rfl rfl

/-! ## C8: a single-field update leaves every other column unchanged -/

/-- C8: when the request supplies exactly one field (the generated `UPDATE`
has exactly one SET entry, `update_fields u = [c]`), the update applied to a
matched row changes at most column `c`: every other column keeps its prior
value; moreover the handler rewrites only rows matched by
`id = %s AND is_deleted = 0`. -/
theorem update_single_field_frame (u : CollectionUpdate) (c : Col)
    (h : update_fields u = [c]) :
    (∀ (r : CollectionRecord) (c' : Col), c' ≠ c → colEq c' (applyUpdate u r) r) ∧
    (∀ (collection_id : Int) (db : List CollectionRecord),
      (update_collection collection_id u db).2 =
        db.map (fun r =>
          if r.id == collection_id && !r.is_deleted then applyUpdate u r else r)) := by
  constructor
  · intro r c' hne
    cases c'
    case invoice_number =>
      cases hs : u.invoice_number with
      | none => simp [colEq, applyUpdate, hs]
      | some v =>
        exfalso
        have hmem : Col.invoice_number ∈ update_fields u := by
          simp [update_fields, List.mem_append, hs]
        rw [h] at hmem
        simp at hmem
        exact hne hmem
    case company_id =>
      cases hs : u.company_id with
      | none => simp [colEq, applyUpdate, hs]
      | some v =>
        exfalso
        have hmem : Col.company_id ∈ update_fields u := by
          simp [update_fields, List.mem_append, hs]
        rw [h] at hmem
        simp at hmem
        exact hne hmem
    case customer_name =>
      cases hs : u.customer_name with
      | none => simp [colEq, applyUpdate, hs]
      | some v =>
        exfalso
        have hmem : Col.customer_name ∈ update_fields u := by
          simp [update_fields, List.mem_append, hs]
        rw [h] at hmem
        simp at hmem
        exact hne hmem
    case user_id =>
      cases hs : u.user_id with
      | none => simp [colEq, applyUpdate, hs]
      | some v =>
        exfalso
        have hmem : Col.user_id ∈ update_fields u := by
          simp [update_fields, List.mem_append, hs]
        rw [h] at hmem
        simp at hmem
        exact hne hmem
    case service =>
      cases hs : u.service with
      | none => simp [colEq, applyUpdate, hs]
      | some v =>
        exfalso
        have hmem : Col.service ∈ update_fields u := by
          simp [update_fields, List.mem_append, hs]
        rw [h] at hmem
        simp at hmem
        exact hne hmem
    case invoice_date =>
      cases hs : u.invoice_date with
      | none => simp [colEq, applyUpdate, hs]
      | some v =>
        exfalso
        have hmem : Col.invoice_date ∈ update_fields u := by
          simp [update_fields, List.mem_append, hs]
        rw [h] at hmem
        simp at hmem
        exact hne hmem
    case due_date =>
      cases hs : u.due_date with
      | none => simp [colEq, applyUpdate, hs]
      | some v =>
        exfalso
        have hmem : Col.due_date ∈ update_fields u := by
          simp [update_fields, List.mem_append, hs]
        rw [h] at hmem
        simp at hmem
        exact hne hmem
    case amount =>
      cases hs : u.amount with
      | none => simp [colEq, applyUpdate, hs]
      | some v =>
        exfalso
        have hmem : Col.amount ∈ update_fields u := by
          simp [update_fields, List.mem_append, hs]
        rw [h] at hmem
        simp at hmem
        exact hne hmem
    case amount_paid =>
      cases hs : u.amount_paid with
      | none => simp [colEq, applyUpdate, hs]
      | some v =>
        exfalso
        have hmem : Col.amount_paid ∈ update_fields u := by
          simp [update_fields, List.mem_append, hs]
        rw [h] at hmem
        simp at hmem
        exact hne hmem
    case status =>
      cases hs : u.status with
      | none => simp [colEq, applyUpdate, hs]
      | some v =>
        exfalso
        have hmem : Col.status ∈ update_fields u := by
          simp [update_fields, List.mem_append, hs]
        rw [h] at hmem
        simp at hmem
        exact hne hmem
    case last_partial_payment_date =>
      cases hs : u.last_partial_payment_date with
      | none => simp [colEq, applyUpdate, hs]
      | some v =>
        exfalso
        have hmem : Col.last_partial_payment_date ∈ update_fields u := by
          simp [update_fields, List.mem_append, hs]
        rw [h] at hmem
        simp at hmem
        exact hne hmem
    case branch =>
      cases hs : u.branch with
      | none => simp [colEq, applyUpdate, hs]
      | some v =>
        exfalso
        have hmem : Col.branch ∈ update_fields u := by
          simp [update_fields, List.mem_append, hs]
        rw [h] at hmem
        simp at hmem
        exact hne hmem
  · intro collection_id db
    unfold update_collection
    rw [if_neg (by rw [h]; exact List.cons_ne_nil c [])]
    dsimp only
    split
    · rfl
    · rfl

/-- Witness for `update_single_field_frame`: updating only `amount` leaves
`status` unchanged on a concrete record. -/
theorem update_single_field_frame_witness :
    colEq Col.status
      (applyUpdate
        ⟨none, none, none, none, none, none, none, some 5, none, none, none, none⟩
        { id := 1, invoice_number := "INV-1", company_id := 2,
          customer_name := "ACME", user_id := 3, service := "app",
          invoice_date := ⟨2026, 1, 10⟩, due_date := ⟨2026, 2, 10⟩,
          amount := 100, amount_paid := 0, status := "pending",
          last_partial_payment_date := none, branch := "Q1",
          outstanding_balance := 100, is_deleted := false })
      { id := 1, invoice_number := "INV-1", company_id := 2,
        customer_name := "ACME", user_id := 3, service := "app",
        invoice_date := ⟨2026, 1, 10⟩, due_date := ⟨2026, 2, 10⟩,
        amount := 100, amount_paid := 0, status := "pending",
        last_partial_payment_date := none, branch := "Q1",
        outstanding_balance := 100, is_deleted := false } :=
  (update_single_field_frame
      ⟨none, none, none, none, none, none, none, some 5, none, none, none, none⟩
      Col.amount (by decide)).1 _ Col.status (by decide)

/-! ## C9: falsy filter values contribute no WHERE predicate -/

/-- C9: a filter parameter supplied with a falsy value — `company_id = 0` on
collections, or an empty string for `status`/`service`/`branch` (collections)
and `search`/`brand`/`model`/`size`/`position` (tires) — contributes no WHERE
predicate, so the response equals that of the identical request with the
parameter omitted entirely. -/
theorem falsy_filters_ignored :
    (∀ (p : ListCollectionsParams) (today : Date) (db : List CollectionRecord),
      list_collections { p with company_id := some 0 } today db =
        list_collections { p with company_id := none } today db) ∧
    (∀ (p : ListCollectionsParams) (today : Date) (db : List CollectionRecord),
      list_collections { p with status := some "" } today db =
        list_collections { p with status := none } today db) ∧
    (∀ (p : ListCollectionsParams) (today : Date) (db : List CollectionRecord),
      list_collections { p with service := some "" } today db =
        list_collections { p with service := none } today db) ∧
    (∀ (p : ListCollectionsParams) (today : Date) (db : List CollectionRecord),
      list_collections { p with branch := some "" } today db =
        list_collections { p with branch := none } today db) ∧
    (∀ (p : ListTiresParams) (db : List TireRecord),
      list_tires { p with search := some "" } db =
        list_tires { p with search := none } db) ∧
    (∀ (p : ListTiresParams) (db : List TireRecord),
      list_tires { p with brand := some "" } db =
        list_tires { p with brand := none } db) ∧
    (∀ (p : ListTiresParams) (db : List TireRecord),
      list_tires { p with model := some "" } db =
        list_tires { p with model := none } db) ∧
    (∀ (p : ListTiresParams) (db : List TireRecord),
      list_tires { p with size := some "" } db =
        list_tires { p with size := none } db) ∧
    (∀ (p : ListTiresParams) (db : List TireRecord),
      list_tires { p with position := some "" } db =
        list_tires { p with position := none } db) := by
  refine ⟨?_, ?_, ?_, ?_, ?_, ?_, ?_, ?_, ?_⟩ <;> intros <;> rfl

/-! ## Bulk upload (`bulk_upload_collections`, src/collection_main.py 390–487)

A parsed tabular file is a list of rows; each row is an association list from
column names to cell values, mirroring a pandas `DataFrame` row (`Series`
indexed by `df.columns`).  A blank cell read from CSV/Excel is pandas `NaN`
(a float); `None` appears only as the default of `row.get(..., None)`. -/

/-- A pandas cell value.  Cells whose text parses as a date are modelled as
`dateVal`; text with no date interpretation as `str`; numeric cells as `num`;
a blank/missing cell as `nan`; Python `None` as `noneVal`. -/
inductive Cell
  | nan
  | noneVal
  | str (s : String)
  | num (q : Rat)
  | dateVal (d : Date)
deriving DecidableEq, Repr

/-- A Python float value, which may be NaN. -/
inductive Flt
  | nan
  | val (q : Rat)
deriving DecidableEq, Repr

/-- One data row: column name ↦ cell value. -/
abbrev UploadRow := List (String × Cell)

/-- Python truthiness of a cell (note: `float('nan')` is truthy; `None`,
`0` and `""` are falsy). -/
def cellTruthy : Cell → Bool
  | Cell.nan => true
  | Cell.noneVal => false
  | Cell.str s => s != ""
  | Cell.num q => q != 0
  | Cell.dateVal _ => true

/-- Models `pd.notna`: false exactly on missing values (`NaN`/`None`). -/
def pdNotna : Cell → Bool
  | Cell.nan => false
  | Cell.noneVal => false
  | _ => true

/-- Models `row.get(key, default)` on a pandas `Series`: the stored value
(possibly `NaN`) when the column exists, the default only when it does not. -/
def rowGet (row : UploadRow) (k : String) (d : Cell) : Cell :=
  (row.lookup k).getD d

/-- Models `row[key]` (raises `KeyError` when the column is absent, which the
per-row `except` turns into a row error). -/
def rowItem (row : UploadRow) (k : String) : Except String Cell :=
  match row.lookup k with
  | some c => Except.ok c
  | none => Except.error ("KeyError: " ++ k)

/-- Models `pd.to_datetime(v).date()`: succeeds on cells holding a date
interpretation, fails on everything else. -/
def to_datetime_date : Cell → Except String Date
  | Cell.dateVal d => Except.ok d
  | _ => Except.error "could not convert value to datetime"

/-- Models Python `int(v)` (truncation toward zero on floats; `int(NaN)`
raises). -/
def pyInt : Cell → Except String Int
  | Cell.num q => Except.ok (Int.tdiv q.num (q.den : Int))
  | Cell.nan => Except.error "cannot convert float NaN to integer"
  | _ => Except.error "invalid argument for int()"

/-- Models Python `float(v)` (`float(NaN)` is NaN, not an error). -/
def pyFloat : Cell → Except String Flt
  | Cell.num q => Except.ok (Flt.val q)
  | Cell.nan => Except.ok Flt.nan
  | _ => Except.error "invalid argument for float()"

/-- The values bound for one inserted row (the `params` tuple of the INSERT,
lines 452–465); fields that undergo no conversion stay as cells. -/
structure InsertRecordValues where
  invoice_number : Cell
  company_id : Int
  customer_name : Cell
  user_id : Int
  service : Cell
  invoice_date : Date
  due_date : Date
  amount : Flt
  amount_paid : Flt
  status : Cell
  last_partial_payment_date : Option Date
  branch : Cell
deriving DecidableEq, Repr

/-- Per-row processing of the bulk upload loop body (lines 428–467): defaults
via `row.get`, date conversions, `last_partial_payment_date` guard, numeric
coercions.  Any failure is the row's error. -/
def processRow (row : UploadRow) : Except String InsertRecordValues := do
  let amount_paid := rowGet row "amount_paid" (Cell.num 0)
  let status := rowGet row "status" (Cell.str "pending")
  let lppd_cell := rowGet row "last_partial_payment_date" Cell.noneVal
  let invoice_date ← to_datetime_date (← rowItem row "invoice_date")
  let due_date ← to_datetime_date (← rowItem row "due_date")
  let lppd ←
    if cellTruthy lppd_cell && pdNotna lppd_cell then
      Except.map some (to_datetime_date lppd_cell)
    else
      Except.ok none
  let inv_no ← rowItem row "invoice_number"
  let company_id ← pyInt (← rowItem row "company_id")
  let customer ← rowItem row "customer_name"
  let user_id ← pyInt (← rowItem row "user_id")
  let service ← rowItem row "service"
  let amount ← pyFloat (← rowItem row "amount")
  let amount_paid_f ← pyFloat amount_paid
  let branch ← rowItem row "branch"
  Except.ok
    { invoice_number := inv_no, company_id := company_id,
      customer_name := customer, user_id := user_id, service := service,
      invoice_date := invoice_date, due_date := due_date, amount := amount,
      amount_paid := amount_paid_f, status := status,
      last_partial_payment_date := lppd, branch := branch }

/-- A per-row error of the bulk upload (`BulkUploadError`,
src/collection_models.py lines 116–119). -/
structure BulkUploadError where
  row : Nat
  error : String
deriving DecidableEq, Repr

/-- The `for idx, row in df.iterrows()` loop (lines 427–474), starting at
pandas index `idx`: returns (inserted count, errors, inserted row values).
A failing row records `row = idx + 2` (1-indexed plus header line). -/
def bulkLoop : List UploadRow → Nat → Nat × List BulkUploadError × List InsertRecordValues
  | [], _ => (0, [], [])
  | row :: rest, idx =>
    let r := bulkLoop rest (idx + 1)
    match processRow row with
    | Except.ok rec => (r.1 + 1, r.2.1, rec :: r.2.2)
    | Except.error e => (r.1, ⟨idx + 2, e⟩ :: r.2.1, r.2.2)

/-- The uploaded file after pandas parsing: filename, header columns, rows. -/
structure UploadFile where
  filename : String
  columns : List String
  rows : List UploadRow
deriving DecidableEq, Repr

/-- Required header columns (lines 410–413). -/
def required_cols : List String :=
  ["invoice_number", "company_id", "customer_name", "user_id",
   "service", "invoice_date", "due_date", "amount", "branch"]

/-- The response of `POST /api/collection/bulk-upload`
(`BulkUploadResponse`, src/collection_models.py lines 122–128). -/
structure BulkUploadResponse where
  success : Bool
  total_rows : Nat
  inserted : Nat
  failed : Nat
  errors : List BulkUploadError
deriving DecidableEq, Repr

/-- Models `bulk_upload_collections` (lines 390–487): extension check, header
validation, then the per-row loop. -/
def bulk_upload_collections (file : UploadFile) : Except HTTPError BulkUploadResponse :=
  if strEndsWith file.filename ".csv" || strEndsWith file.filename ".xlsx"
      || strEndsWith file.filename ".xls" then
    let missing := required_cols.filter (fun c => !file.columns.contains c)
    if missing.isEmpty then
      let r := bulkLoop file.rows 0
      Except.ok
        { success := decide (0 < r.1), total_rows := file.rows.length,
          inserted := r.1, failed := r.2.1.length, errors := r.2.1 }
    else
      Except.error ⟨400, "Missing required columns: " ++ String.intercalate ", " missing⟩
  else
    Except.error ⟨400, "Invalid file format. Use CSV or Excel (.xlsx, .xls)"⟩

/-- The rows actually inserted by a bulk upload (the successful
`db.execute(INSERT ...)` calls, in file order). -/
def bulk_inserted (file : UploadFile) : List InsertRecordValues :=
  (bulkLoop file.rows 0).2.2

/-! ## C10: every data row either inserts or records exactly one error -/

theorem bulkLoop_counts (rows : List UploadRow) (idx : Nat) :
    rows.length = (bulkLoop rows idx).1 + (bulkLoop rows idx).2.1.length := by
  induction rows generalizing idx with
  | nil => rfl
  | cons row rest ih =>
    unfold bulkLoop
    dsimp only
    cases hp : processRow row
    · dsimp only
      rw [List.length_cons, List.length_cons, ih (idx + 1)]
      omega
    · dsimp only
      rw [List.length_cons, ih (idx + 1)]
      omega

/-- C10: for every bulk-upload file that passes header validation, the
response satisfies `total_rows = inserted + failed` and
`failed = errors.length`: each data row either increments the inserted count
or appends exactly one error. -/
theorem bulk_upload_counts (file : UploadFile) (resp : BulkUploadResponse)
    (h : bulk_upload_collections file = Except.ok resp) :
    resp.total_rows = resp.inserted + resp.failed ∧
    resp.failed = resp.errors.length := by
  unfold bulk_upload_collections at h
  dsimp only at h
  split at h
  · split at h
    · rw [Except.ok.injEq] at h
      subst h
      exact ⟨bulkLoop_counts file.rows 0, rfl⟩
    · exact Except.noConfusion h
  · exact Except.noConfusion h

/-! ## C2: reported row numbers are the 0-based pandas index plus 2 -/

theorem bulkLoop_errors (rows : List UploadRow) (idx : Nat) :
    (bulkLoop rows idx).2.1 =
      (List.enumFrom idx rows).filterMap (fun p =>
        match processRow p.2 with
        | Except.ok _ => none
        | Except.error e => some ⟨p.1 + 2, e⟩) := by
  induction rows generalizing idx with
  | nil => rfl
  | cons row rest ih =>
    unfold bulkLoop
    dsimp only
    rw [List.enumFrom]
    rw [List.filterMap_cons]
    cases hp : processRow row
    · dsimp only
      rw [ih (idx + 1)]
    · dsimp only
      exact ih (idx + 1)

/-- C2: for every bulk-upload file whose header passes validation, every
recorded error's row number equals the row's 0-based pandas index plus 2
(equivalently its 1-based data row index plus 1), accounting for the header
line; the error list is exactly the failing rows in file order. -/
theorem bulk_upload_row_numbers (file : UploadFile) (resp : BulkUploadResponse)
    (h : bulk_upload_collections file = Except.ok resp) :
    resp.errors = file.rows.enum.filterMap (fun p =>
      match processRow p.2 with
      | Except.ok _ => none
      | Except.error e => some ⟨p.1 + 2, e⟩) ∧
    ∀ err ∈ resp.errors, ∃ i row, file.rows[i]? = some row ∧
      processRow row = Except.error err.error ∧ err.row = i + 2 := by
  have herrs : resp.errors = file.rows.enum.filterMap (fun p =>
      match processRow p.2 with
      | Except.ok _ => none
      | Except.error e => some ⟨p.1 + 2, e⟩) := by
    unfold bulk_upload_collections at h
    dsimp only at h
    split at h
    · split at h
      · rw [Except.ok.injEq] at h
        rw [← h]
        dsimp only
        rw [bulkLoop_errors, ← List.enum_eq_enumFrom]
      · exact Except.noConfusion h
    · exact Except.noConfusion h
  refine ⟨herrs, ?_⟩
  intro err hmem
  rw [herrs, List.enum_eq_enumFrom, List.mem_filterMap] at hmem
  obtain ⟨p, hp, hfn⟩ := hmem
  obtain ⟨i, row⟩ := p
  obtain ⟨-, hlt, hrow⟩ := List.mem_enumFrom hp
  dsimp only at hfn hrow hlt
  cases hpr : processRow row with
  | error e =>
    rw [hpr] at hfn
    rw [Option.some.injEq] at hfn
    refine ⟨i, row, ?_, ?_, ?_⟩
    · rw [List.getElem?_eq_getElem (by omega : i < file.rows.length)]
      exact congrArg some hrow.symm
    · rw [← hfn]
      exact hpr
    · rw [← hfn]
  | ok rec =>
    rw [hpr] at hfn
    exact Option.noConfusion hfn

/-! ## Sample upload data for witnesses and counterexamples -/

/-- A data row that processes successfully (all required columns present,
parseable dates, numeric ids). -/
def sampleRowOk (n : Nat) : UploadRow :=
  [("invoice_number", Cell.str ("INV-" ++ toString n)),
   ("company_id", Cell.num 1),
   ("customer_name", Cell.str "ACME"),
   ("user_id", Cell.num 2),
   ("service", Cell.str "app"),
   ("invoice_date", Cell.dateVal ⟨2026, 1, 10⟩),
   ("due_date", Cell.dateVal ⟨2026, 2, 10⟩),
   ("amount", Cell.num 100),
   ("branch", Cell.str "Q1")]

/-- A data row whose `invoice_date` cell holds unparseable text. -/
def sampleRowBadDate : UploadRow :=
  [("invoice_number", Cell.str "INV-3"),
   ("company_id", Cell.num 1),
   ("customer_name", Cell.str "ACME"),
   ("user_id", Cell.num 2),
   ("service", Cell.str "app"),
   ("invoice_date", Cell.str "not-a-date"),
   ("due_date", Cell.dateVal ⟨2026, 2, 10⟩),
   ("amount", Cell.num 100),
   ("branch", Cell.str "Q1")]

/-- A 6-row CSV whose 3rd data row (0-based index 2) has an unparseable
date; the other five rows are valid. -/
def sampleFile6 : UploadFile :=
  { filename := "data.csv", columns := required_cols,
    rows := [sampleRowOk 1, sampleRowOk 2, sampleRowBadDate,
             sampleRowOk 4, sampleRowOk 5, sampleRowOk 6] }

/-- The response computed for `sampleFile6`. -/
def sampleResp6 : BulkUploadResponse :=
  { success := true, total_rows := 6, inserted := 5, failed := 1,
    errors := [⟨4, "could not convert value to datetime"⟩] }

/-- Witness for `bulk_upload_counts`: the 6-row sample file gives
`inserted = 5`, `failed = 1`, `total_rows = 6 = 5 + 1`. -/
theorem bulk_upload_counts_witness :
    sampleResp6.total_rows = sampleResp6.inserted + sampleResp6.failed ∧
    sampleResp6.failed = sampleResp6.errors.length :=
  bulk_upload_counts sampleFile6 sampleResp6 (by decide)

/-- Witness for `bulk_upload_row_numbers`: in the 6-row sample file only the
3rd data row (0-based index 2) fails, and the single reported error carries
`row = 4 = 3 + 1`. -/
theorem bulk_upload_row_numbers_witness :
    sampleResp6.errors = sampleFile6.rows.enum.filterMap (fun p =>
      match processRow p.2 with
      | Except.ok _ => none
      | Except.error e => some ⟨p.1 + 2, e⟩) :=
  (bulk_upload_row_numbers sampleFile6 sampleResp6 (by decide)).1

/-! ## C3: amount_paid / status defaults -/

/-- A data row whose `amount_paid` and `status` columns are present but
blank: pandas reads the empty cells as `NaN`. -/
def sampleRowBlank : UploadRow :=
  [("invoice_number", Cell.str "INV-1"),
   ("company_id", Cell.num 1),
   ("customer_name", Cell.str "ACME"),
   ("user_id", Cell.num 2),
   ("service", Cell.str "app"),
   ("invoice_date", Cell.dateVal ⟨2026, 1, 10⟩),
   ("due_date", Cell.dateVal ⟨2026, 2, 10⟩),
   ("amount", Cell.num 100),
   ("amount_paid", Cell.nan),
   ("status", Cell.nan),
   ("branch", Cell.str "Q1")]

/-- A one-row CSV whose header carries the optional `amount_paid` and
`status` columns, with both cells blank in the data row. -/
def sampleFileBlank : UploadFile :=
  { filename := "data.csv",
    columns := required_cols ++ ["amount_paid", "status"],
    rows := [sampleRowBlank] }

/-- Counterexample to C3 as stated: in a file whose header passes validation,
a data row with *blank* (NaN) `amount_paid` and `status` cells is inserted
with `amount_paid = NaN` (not 0) and `status = NaN` (not "pending"):
`row.get(col, default)` falls back to the default only when the column is
absent, not when the cell is blank. -/
theorem bulk_defaults_blank_counterexample :
    bulk_upload_collections sampleFileBlank =
      Except.ok { success := true, total_rows := 1, inserted := 1,
                  failed := 0, errors := [] } ∧
    bulk_inserted sampleFileBlank =
      [{ invoice_number := Cell.str "INV-1", company_id := 1,
         customer_name := Cell.str "ACME", user_id := 2,
         service := Cell.str "app", invoice_date := ⟨2026, 1, 10⟩,
         due_date := ⟨2026, 2, 10⟩, amount := Flt.val 100,
         amount_paid := Flt.nan, status := Cell.nan,
         last_partial_payment_date := none, branch := Cell.str "Q1" }] ∧
    Flt.nan ≠ Flt.val 0 ∧ Cell.nan ≠ Cell.str "pending" :=
  ⟨by decide, by decide, by decide, by decide⟩

/-- C3 (amended): for every data row of a header-valid file, the defaults
`amount_paid = 0` and `status = "pending"` apply exactly when the column is
absent from the file; when the column is present but the cell is blank, the
row is processed with the pandas missing value NaN instead (`amount_paid`
becomes float NaN, `status` is passed through as NaN). -/
theorem bulk_defaults_only_when_column_absent (row : UploadRow)
    (rec : InsertRecordValues) (h : processRow row = Except.ok rec) :
    (row.lookup "amount_paid" = none → rec.amount_paid = Flt.val 0) ∧
    (row.lookup "status" = none → rec.status = Cell.str "pending") ∧
    (row.lookup "amount_paid" = some Cell.nan → rec.amount_paid = Flt.nan) ∧
    (row.lookup "status" = some Cell.nan → rec.status = Cell.nan) := by
  unfold processRow rowGet at h
  simp only [bind, Except.bind, Except.map] at h
  repeat' split at h
  all_goals try exact Except.noConfusion h
  all_goals
    rw [Except.ok.injEq] at h
    rw [← h]
    refine ⟨?_, ?_, ?_, ?_⟩ <;> intro hl <;>
      simp only [hl, Option.getD_none, Option.getD_some] at * <;> simp_all [pyFloat]

/-- Witness for `bulk_defaults_only_when_column_absent`: a row without
`amount_paid`/`status` columns gets `amount_paid = 0`, `status = "pending"`. -/
theorem bulk_defaults_only_when_column_absent_witness :
    ((sampleRowOk 1).lookup "amount_paid" = none →
      ({ invoice_number := Cell.str "INV-1", company_id := 1,
         customer_name := Cell.str "ACME", user_id := 2,
         service := Cell.str "app", invoice_date := ⟨2026, 1, 10⟩,
         due_date := ⟨2026, 2, 10⟩, amount := Flt.val 100,
         amount_paid := Flt.val 0, status := Cell.str "pending",
         last_partial_payment_date := none,
         branch := Cell.str "Q1" } : InsertRecordValues).amount_paid = Flt.val 0) ∧
    ((sampleRowOk 1).lookup "status" = none →
      ({ invoice_number := Cell.str "INV-1", company_id := 1,
         customer_name := Cell.str "ACME", user_id := 2,
         service := Cell.str "app", invoice_date := ⟨2026, 1, 10⟩,
         due_date := ⟨2026, 2, 10⟩, amount := Flt.val 100,
         amount_paid := Flt.val 0, status := Cell.str "pending",
         last_partial_payment_date := none,
         branch := Cell.str "Q1" } : InsertRecordValues).status = Cell.str "pending") ∧
    ((sampleRowOk 1).lookup "amount_paid" = some Cell.nan →
      ({ invoice_number := Cell.str "INV-1", company_id := 1,
         customer_name := Cell.str "ACME", user_id := 2,
         service := Cell.str "app", invoice_date := ⟨2026, 1, 10⟩,
         due_date := ⟨2026, 2, 10⟩, amount := Flt.val 100,
         amount_paid := Flt.val 0, status := Cell.str "pending",
         last_partial_payment_date := none,
         branch := Cell.str "Q1" } : InsertRecordValues).amount_paid = Flt.nan) ∧
    ((sampleRowOk 1).lookup "status" = some Cell.nan →
      ({ invoice_number := Cell.str "INV-1", company_id := 1,
         customer_name := Cell.str "ACME", user_id := 2,
         service := Cell.str "app", invoice_date := ⟨2026, 1, 10⟩,
         due_date := ⟨2026, 2, 10⟩, amount := Flt.val 100,
         amount_paid := Flt.val 0, status := Cell.str "pending",
         last_partial_payment_date := none,
         branch := Cell.str "Q1" } : InsertRecordValues).status = Cell.nan) :=
  bulk_defaults_only_when_column_absent (sampleRowOk 1) _ (by decide)

/-! ## C1: companies endpoint (`get_companies`, src/collection_main.py 113–123) -/

/-- A row of the `companies` table (the two selected columns). -/
structure Company where
  id : Int
  name : String
deriving DecidableEq, Repr

/-- A value in a row returned by the database driver (`DictCursor` maps
column names to values). -/
inductive DBVal
  | intV (i : Int)
  | strV (s : String)
deriving DecidableEq, Repr

/-- `CompanyResponse` (src/collection_models.py lines 95–101): its declared
fields are `id` and `company_name`. -/
structure CompanyResponse where
  id : Int
  company_name : String
deriving DecidableEq, Repr

/-- pydantic construction `CompanyResponse(**row)`: requires the keys `id`
and `company_name`; a missing required field raises a validation error. -/
def companyResponse_validate (row : List (String × DBVal)) :
    Except String CompanyResponse :=
  match row.lookup "id", row.lookup "company_name" with
  | some (DBVal.intV i), some (DBVal.strV s) => Except.ok ⟨i, s⟩
  | _, _ => Except.error "validation error for CompanyResponse: field required"

/-- The rows produced by `SELECT id, name FROM companies ORDER BY name`:
dictionaries with keys `id` and `name`. -/
def companiesSelect (companies : List Company) : List (List (String × DBVal)) :=
  (sortByRel (fun a b => decide (a.name ≤ b.name)) companies).map
    (fun c => [("id", DBVal.intV c.id), ("name", DBVal.strV c.name)])

/-- Models `get_companies` (src/collection_main.py lines 113–123): builds a
`CompanyResponse` from every returned row; any exception is caught and
re-raised as a 500. -/
def get_companies (companies : List Company) :
    Except HTTPError (List CompanyResponse) :=
  match (companiesSelect companies).mapM companyResponse_validate with
  | Except.ok data => Except.ok data
  | Except.error e => Except.error ⟨500, e⟩

/-- C1 (code bug): the SELECT returns rows of shape `{id, name}` but
`CompanyResponse` requires the field `company_name`, so building a response
element from a row fails pydantic validation and the endpoint answers 500 for
any non-empty companies table (it succeeds only on the empty table). -/
theorem get_companies_validation_bug :
    get_companies [⟨1, "Acme"⟩] =
      Except.error ⟨500, "validation error for CompanyResponse: field required"⟩ ∧
    companyResponse_validate [("id", DBVal.intV 1), ("name", DBVal.strV "Acme")] =
      Except.error "validation error for CompanyResponse: field required" ∧
    get_companies [] = Except.ok [] :=
  ⟨by decide, by decide, by decide⟩
